import Mathlib

/-!
# Verification of the `hadean-go/cli` exit-code library

Shallow embedding of `cli.go`: the `ExitCode` registry, the classifier
(`Category`, `IsRetriable`, HTTP mappings), text (un)marshalling, the
`ExitError` wrapper with its JSON record, the predefined sentinel errors,
and the error resolver `ResolveExitCode`.

Go `error` values are modelled by the inductive type `Err`, covering the
shapes the library inspects: `ExitError` values (with an optional cause),
the predefined sentinel errors compared by identity (`errors.Is`),
leaf errors carrying the OS conditions `os.IsNotExist` / `os.IsPermission`,
errors exposing the `net.Error` capability (`Timeout`/`Temporary`),
`fmt.Errorf`-style wrappers (which unwrap to an inner error), and opaque
generic errors.  A Go `error` variable that may be nil is `Option Err`.
Machine integers are modelled as `Int` (exit codes and HTTP statuses stay
far from the 64-bit bounds), and `[]byte` text as `List Char`.
-/

/-- The Go `Category` string type; its values are the constant strings below. -/
abbrev Category := String

def CategorySuccess : Category := "success"

def CategoryGeneral : Category := "general"

def CategoryUserError : Category := "user_error"

def CategoryCLIExtended : Category := "cli_extended"

def CategorySystemSignal : Category := "system_signal"

def CategoryUnknown : Category := "unknown"

def ExitCodeSuccess : Int := 0

def ExitCodeErrorInternal : Int := 1

def ExitCodeError : Int := 1

def ExitCodeInvalidArgument : Int := 2

def ExitCodeUsageError : Int := 2

def ExitCodeCmdUsage : Int := 64

def ExitCodeDataError : Int := 65

def ExitCodeNoInput : Int := 66

def ExitCodeNoUser : Int := 67

def ExitCodeNoHost : Int := 68

def ExitCodeUnavailable : Int := 69

def ExitCodeSoftware : Int := 70

def ExitCodeOSError : Int := 71

def ExitCodeOSFile : Int := 72

def ExitCodeCantCreate : Int := 73

def ExitCodeIOError : Int := 74

def ExitCodeTempFail : Int := 75

def ExitCodeProtocol : Int := 76

def ExitCodeNoPermission : Int := 77

def ExitCodeConfig : Int := 78

def ExitCodeAuthRequired : Int := 80

def ExitCodeAuthFailed : Int := 81

def ExitCodeForbidden : Int := 82

def ExitCodeNotFound : Int := 83

def ExitCodeConflict : Int := 84

def ExitCodeValidation : Int := 85

def ExitCodeRateLimit : Int := 86

def ExitCodeQuotaExceeded : Int := 87

def ExitCodeInterrupted : Int := 130

def ExitCodeTerminated : Int := 143

/-- `ExitCode.String()`: the registry description of a code (switch over the
named constants, with a formatted default for unknown codes). -/
def ExitCode.string (c : Int) : String :=
  if c = ExitCodeSuccess then "Success"
  else if c = ExitCodeErrorInternal then "Internal error"
  else if c = ExitCodeInvalidArgument then "Invalid argument"
  else if c = ExitCodeCmdUsage then "Command usage error"
  else if c = ExitCodeDataError then "Data format error"
  else if c = ExitCodeNoInput then "Input file not found"
  else if c = ExitCodeNoUser then "User not found"
  else if c = ExitCodeNoHost then "Host not found"
  else if c = ExitCodeUnavailable then "Service unavailable"
  else if c = ExitCodeSoftware then "Internal software error"
  else if c = ExitCodeOSError then "Operating system error"
  else if c = ExitCodeOSFile then "System file error"
  else if c = ExitCodeCantCreate then "Cannot create output file"
  else if c = ExitCodeIOError then "I/O error"
  else if c = ExitCodeTempFail then "Temporary failure"
  else if c = ExitCodeProtocol then "Protocol error"
  else if c = ExitCodeNoPermission then "Permission denied"
  else if c = ExitCodeConfig then "Configuration error"
  else if c = ExitCodeAuthRequired then "Authentication required"
  else if c = ExitCodeAuthFailed then "Authentication failed"
  else if c = ExitCodeForbidden then "Forbidden"
  else if c = ExitCodeNotFound then "Not found"
  else if c = ExitCodeConflict then "Conflict"
  else if c = ExitCodeValidation then "Validation error"
  else if c = ExitCodeRateLimit then "Rate limit exceeded"
  else if c = ExitCodeQuotaExceeded then "Quota exceeded"
  else if c = ExitCodeInterrupted then "Interrupted by user"
  else if c = ExitCodeTerminated then "Terminated by system"
  else "Unknown exit code: " ++ toString c

/-- Whether a code has a named constant (one of the cases of `ExitCode.string`). -/
def isNamedCode (c : Int) : Bool :=
  decide (c = 0 ∨ c = 1 ∨ c = 2 ∨ (64 ≤ c ∧ c ≤ 78) ∨ (80 ≤ c ∧ c ≤ 87) ∨
    c = 130 ∨ c = 143)

/-- `ExitCode.Category()`: range-based category lookup. -/
def ExitCode.category (c : Int) : Category :=
  if c = 0 then CategorySuccess
  else if 1 ≤ c ∧ c ≤ 63 then CategoryGeneral
  else if 64 ≤ c ∧ c ≤ 79 then CategoryUserError
  else if 80 ≤ c ∧ c ≤ 99 then CategoryCLIExtended
  else if 128 ≤ c then CategorySystemSignal
  else CategoryUnknown

/-- `ExitCode.IsRetriable()`: switch over the four retriable codes. -/
def ExitCode.isRetriable (c : Int) : Bool :=
  if c = ExitCodeTempFail ∨ c = ExitCodeUnavailable ∨ c = ExitCodeIOError ∨
      c = ExitCodeRateLimit then true
  else false

/-- The predefined sentinel errors (`errors.New` package-level values compared
by identity), together with the two `context` sentinels the resolver checks. -/
inductive Sentinel where
  | canceled
  | deadlineExceeded
  | errInternal
  | errInvalid
  | errUsage
  | errDataFormat
  | errNotFound
  | errNoPermission
  | errConfig
  | errAuth
  | errForbidden
  | errValidation
  | errIOError
  | errUnavailable
  | errTempFail
deriving DecidableEq

/-- The message text of each sentinel (the `errors.New` argument;
for the context sentinels, their `Error()` text). -/
def Sentinel.text : Sentinel → String
  | .canceled => "context canceled"
  | .deadlineExceeded => "context deadline exceeded"
  | .errInternal => "internal error"
  | .errInvalid => "invalid argument"
  | .errUsage => "usage error"
  | .errDataFormat => "data format error"
  | .errNotFound => "not found"
  | .errNoPermission => "permission denied"
  | .errConfig => "configuration error"
  | .errAuth => "authentication error"
  | .errForbidden => "forbidden"
  | .errValidation => "validation error"
  | .errIOError => "I/O error"
  | .errUnavailable => "service unavailable"
  | .errTempFail => "temporary failure"

/-- Go `error` values, restricted to the shapes the library inspects.

* `exitError code message cause` — a `*ExitError`; `Unwrap` returns the cause.
* `sentinel s` — one of the predefined identity-compared sentinel errors.
* `osError msg notExist permission` — a leaf error for which `os.IsNotExist`
  reports `notExist` and `os.IsPermission` reports `permission`
  (those predicates do not follow `Unwrap` chains).
* `netError msg timeout temporary` — a leaf error implementing `net.Error`,
  with the results of its `Timeout()` and `Temporary()` methods.
* `wrap msg inner` — a `fmt.Errorf("...: %w", inner)`-style wrapper whose
  `Error()` text is `msg` and whose `Unwrap` returns `inner`.
* `generic msg` — an opaque leaf error (`errors.New`). -/
inductive Err where
  | exitError (code : Int) (message : String) (cause : Option Err)
  | sentinel (s : Sentinel)
  | osError (msg : String) (notExist : Bool) (permission : Bool)
  | netError (msg : String) (timeout : Bool) (temporary : Bool)
  | wrap (msg : String) (inner : Err)
  | generic (msg : String)

/-- The `ExitError` struct: a code, a message and an optional cause. -/
structure ExitError where
  Code : Int
  Message : String
  Cause : Option Err

/-- View an `ExitError` as a Go error value. -/
def ExitError.toErr (e : ExitError) : Err :=
  .exitError e.Code e.Message e.Cause

/-- `Error()` on an arbitrary error value: for an `ExitError`, the message if
non-empty, else the cause's text if present, else the registry description of
the code; for every other shape, its stored text. -/
def errString : Err → String
  | .exitError c m k =>
    if m ≠ "" then m
    else match k with
      | some cause => errString cause
      | none => ExitCode.string c
  | .sentinel s => s.text
  | .osError m _ _ => m
  | .netError m _ _ => m
  | .wrap m _ => m
  | .generic m => m

/-- `ExitError.Error()`. -/
def ExitError.error (e : ExitError) : String :=
  errString e.toErr

/-- `errors.Is(e, sentinel s)`: identity comparison along the unwrap chain
(`ExitError.Unwrap` returns the cause; wrappers unwrap to their inner error). -/
def errIs : Err → Sentinel → Bool
  | .sentinel t, s => decide (t = s)
  | .exitError _ _ (some k), s => errIs k s
  | .exitError _ _ none, _ => false
  | .wrap _ inner, s => errIs inner s
  | _, _ => false

/-- `errors.As(e, &exitErr)`: the first `*ExitError` along the unwrap chain. -/
def asExitError : Err → Option ExitError
  | .exitError c m k => some ⟨c, m, k⟩
  | .wrap _ inner => asExitError inner
  | _ => none

/-- `errors.As(e, &ne)` for `net.Error`: the first error along the unwrap
chain exposing the network capability, as its (timeout, temporary) flags. -/
def asNetError : Err → Option (Bool × Bool)
  | .netError _ t tmp => some (t, tmp)
  | .exitError _ _ (some k) => asNetError k
  | .wrap _ inner => asNetError inner
  | _ => none

/-- `os.IsNotExist`: checked on the error itself (no unwrap-chain walk). -/
def osIsNotExist : Err → Bool
  | .osError _ ne _ => ne
  | _ => false

/-- `os.IsPermission`: checked on the error itself (no unwrap-chain walk). -/
def osIsPermission : Err → Bool
  | .osError _ _ p => p
  | _ => false

/-- `ResolveExitCode(err)`: the resolver, translated clause by clause from
the source's priority chain. -/
def ResolveExitCode : Option Err → Int
  | none => ExitCodeSuccess
  | some err =>
    match asExitError err with
    | some exitErr => exitErr.Code
    | none =>
      if errIs err .canceled then ExitCodeInterrupted
      else if errIs err .deadlineExceeded then ExitCodeTempFail
      else if osIsNotExist err then ExitCodeNoInput
      else if osIsPermission err then ExitCodeNoPermission
      else match asNetError err with
      | some (timeout, temporary) =>
        if timeout then ExitCodeTempFail
        else if temporary then ExitCodeTempFail
        else ExitCodeUnavailable
      | none =>
        if errIs err .errInternal then ExitCodeErrorInternal
        else if errIs err .errInvalid then ExitCodeInvalidArgument
        else if errIs err .errUsage then ExitCodeUsageError
        else if errIs err .errDataFormat then ExitCodeDataError
        else if errIs err .errNotFound then ExitCodeNotFound
        else if errIs err .errNoPermission then ExitCodeNoPermission
        else if errIs err .errConfig then ExitCodeConfig
        else if errIs err .errAuth then ExitCodeAuthFailed
        else if errIs err .errForbidden then ExitCodeForbidden
        else if errIs err .errValidation then ExitCodeValidation
        else if errIs err .errIOError then ExitCodeIOError
        else if errIs err .errUnavailable then ExitCodeUnavailable
        else if errIs err .errTempFail then ExitCodeTempFail
        else ExitCodeErrorInternal

/-- The code the resolver binds to each predefined sentinel (the right-hand
sides of its `errors.Is` cases; the two context sentinels get the codes of
their own clauses). -/
def sentinelCode : Sentinel → Int
  | .canceled => ExitCodeInterrupted
  | .deadlineExceeded => ExitCodeTempFail
  | .errInternal => ExitCodeErrorInternal
  | .errInvalid => ExitCodeInvalidArgument
  | .errUsage => ExitCodeUsageError
  | .errDataFormat => ExitCodeDataError
  | .errNotFound => ExitCodeNotFound
  | .errNoPermission => ExitCodeNoPermission
  | .errConfig => ExitCodeConfig
  | .errAuth => ExitCodeAuthFailed
  | .errForbidden => ExitCodeForbidden
  | .errValidation => ExitCodeValidation
  | .errIOError => ExitCodeIOError
  | .errUnavailable => ExitCodeUnavailable
  | .errTempFail => ExitCodeTempFail

/-- The sentinel contained in an error's unwrap chain, if any.  Sentinels are
leaves and chains are linear, so a chain holds at most one sentinel. -/
def chainSentinel : Err → Option Sentinel
  | .sentinel s => some s
  | .exitError _ _ (some k) => chainSentinel k
  | .wrap _ inner => chainSentinel inner
  | _ => none

/-- The resolution algorithm as the specification words it, clause by clause
in its priority order: nil, ExitError in chain, canceled sentinel,
deadline-exceeded sentinel, the two OS conditions, the network capability
(timeout-or-temporary versus neither), the predefined-sentinel table, and the
internal-error default. -/
def resolveSpecification : Option Err → Int
  | none => ExitCodeSuccess
  | some err =>
    match asExitError err with
    | some exitErr => exitErr.Code
    | none =>
      if chainSentinel err = some .canceled then ExitCodeInterrupted
      else if chainSentinel err = some .deadlineExceeded then ExitCodeTempFail
      else if osIsNotExist err then ExitCodeNoInput
      else if osIsPermission err then ExitCodeNoPermission
      else match asNetError err with
      | some (timeout, temporary) =>
        if timeout || temporary then ExitCodeTempFail else ExitCodeUnavailable
      | none =>
        match chainSentinel err with
        | some s => sentinelCode s
        | none => ExitCodeErrorInternal

/-- Whether an error's unwrap chain contains an `ExitError` bound to `x`
(at any depth). -/
def chainHasExitCode (x : Int) : Err → Bool
  | .exitError c _ k =>
    decide (c = x) || (match k with
      | some inner => chainHasExitCode x inner
      | none => false)
  | .wrap _ inner => chainHasExitCode x inner
  | _ => false

/-- Wrap an error under a stack of `fmt.Errorf`-style generic wrappers,
outermost message first. -/
def wrapAll : List String → Err → Err
  | [], e => e
  | m :: ms, e => .wrap m (wrapAll ms e)

/-- The structured (JSON) record `ExitError.MarshalJSON` produces.  The
`cause` field carries `json:"cause,omitempty"`, so the key is absent exactly
when the rendered cause string is empty; `Option.none` models the absent key. -/
structure ExitErrorJSON where
  code : Int
  name : String
  category : Category
  message : String
  cause : Option String

/-- `ExitError.MarshalJSON`. -/
def ExitError.marshalJSON (e : ExitError) : ExitErrorJSON :=
  let causeStr : String :=
    match e.Cause with
    | some c => errString c
    | none => ""
  { code := e.Code
    name := ExitCode.string e.Code
    category := ExitCode.category e.Code
    message := e.error
    cause := if causeStr = "" then none else some causeStr }

/-- `NewExitError`. -/
def NewExitError (code : Int) (message : String) (cause : Option Err) :
    ExitError :=
  { Code := code, Message := message, Cause := cause }

/-- `UsageError`. -/
def UsageError (message : String) : ExitError :=
  NewExitError ExitCodeUsageError message (some (.sentinel .errUsage))

/-- `ValidationError`. -/
def ValidationError (message : String) : ExitError :=
  NewExitError ExitCodeValidation message (some (.sentinel .errValidation))

/-- `ConfigError`. -/
def ConfigError (message : String) : ExitError :=
  NewExitError ExitCodeConfig message (some (.sentinel .errConfig))

/-- `NotFoundError`: message `"<resource> not found"`. -/
def NotFoundError (resource : String) : ExitError :=
  NewExitError ExitCodeNotFound (resource ++ " not found")
    (some (.sentinel .errNotFound))

/-- `PermissionError`: message `"permission denied: <action>"`. -/
def PermissionError (action : String) : ExitError :=
  NewExitError ExitCodeNoPermission ("permission denied: " ++ action)
    (some (.sentinel .errNoPermission))

/-- `AuthError`. -/
def AuthError (message : String) : ExitError :=
  NewExitError ExitCodeAuthFailed message (some (.sentinel .errAuth))

/-- `TempFailError`. -/
def TempFailError (message : String) : ExitError :=
  NewExitError ExitCodeTempFail message (some (.sentinel .errTempFail))

/-- `FromHTTPStatus`. -/
def FromHTTPStatus (status : Int) : Int :=
  if status = 200 ∨ status = 201 ∨ status = 202 ∨ status = 204 then
    ExitCodeSuccess
  else if status = 400 then ExitCodeDataError
  else if status = 401 then ExitCodeAuthFailed
  else if status = 403 then ExitCodeForbidden
  else if status = 404 then ExitCodeNotFound
  else if status = 409 then ExitCodeConflict
  else if status = 412 ∨ status = 422 then ExitCodeValidation
  else if status = 423 then ExitCodeForbidden
  else if status = 429 then ExitCodeRateLimit
  else if status = 500 then ExitCodeSoftware
  else if status = 501 ∨ status = 502 ∨ status = 503 ∨ status = 504 then
    ExitCodeUnavailable
  else if 200 ≤ status ∧ status < 300 then ExitCodeSuccess
  else if 400 ≤ status ∧ status < 500 then ExitCodeDataError
  else if 500 ≤ status then ExitCodeUnavailable
  else ExitCodeErrorInternal

/-- `ToHTTPStatus`. -/
def ToHTTPStatus (code : Int) : Int :=
  if code = ExitCodeSuccess then 200
  else if code = ExitCodeInvalidArgument ∨ code = ExitCodeCmdUsage ∨
      code = ExitCodeDataError ∨ code = ExitCodeValidation then 400
  else if code = ExitCodeAuthRequired ∨ code = ExitCodeAuthFailed then 401
  else if code = ExitCodeForbidden ∨ code = ExitCodeNoPermission then 403
  else if code = ExitCodeNotFound ∨ code = ExitCodeNoInput then 404
  else if code = ExitCodeConflict then 409
  else if code = ExitCodeRateLimit ∨ code = ExitCodeQuotaExceeded then 429
  else if code = ExitCodeUnavailable ∨ code = ExitCodeTempFail then 503
  else if code = ExitCodeSoftware ∨ code = ExitCodeOSError ∨
      code = ExitCodeIOError ∨ code = ExitCodeErrorInternal then 500
  else 500

/-- The codes matching a non-default case of `ToHTTPStatus` (the codes with a
designated HTTP status). -/
def hasDesignatedHTTPStatus (code : Int) : Bool :=
  decide (code = 0 ∨ code = 1 ∨ code = 2 ∨ code = 64 ∨ code = 65 ∨
    code = 66 ∨ code = 69 ∨ code = 70 ∨ code = 71 ∨ code = 74 ∨ code = 75 ∨
    code = 77 ∨ code = 80 ∨ code = 81 ∨ code = 82 ∨ code = 83 ∨ code = 84 ∨
    code = 85 ∨ code = 86 ∨ code = 87)

/-- The ASCII and Latin-1 white space recognized by Go's
`strings.TrimSpace` (the Unicode spaces above U+00FF are not modelled;
no text in this development contains them). -/
def goIsSpace (ch : Char) : Bool :=
  decide (ch.toNat = 32 ∨ ch.toNat = 9 ∨ ch.toNat = 10 ∨ ch.toNat = 13 ∨
    ch.toNat = 11 ∨ ch.toNat = 12 ∨ ch.toNat = 133 ∨ ch.toNat = 160)

/-- `strings.TrimSpace`: drop white space from both ends. -/
def trimSpace (s : List Char) : List Char :=
  (((s.dropWhile goIsSpace).reverse.dropWhile goIsSpace)).reverse

/-- An ASCII decimal digit. -/
def isDigitChar (ch : Char) : Bool :=
  decide (48 ≤ ch.toNat ∧ ch.toNat ≤ 57)

/-- The digit character for `d < 10`. -/
def digitChar (d : Nat) : Char :=
  Char.ofNat (48 + d)

/-- The decimal digits of a natural number, most significant first
(the digit loop inside `strconv.Itoa`). -/
def natDigits (n : Nat) : List Char :=
  if _h : n < 10 then [digitChar n]
  else natDigits (n / 10) ++ [digitChar (n % 10)]
decreasing_by exact Nat.div_lt_self (by omega) (by omega)

/-- `strconv.Itoa` on a Go `int`. -/
def itoa (n : Int) : List Char :=
  if n < 0 then Char.ofNat 45 :: natDigits (-n).toNat
  else natDigits n.toNat

/-- The digit-accumulation loop of `strconv.Atoi`. -/
def parseGo : Nat → List Char → Option Nat
  | acc, [] => some acc
  | acc, ch :: rest =>
    if isDigitChar ch then parseGo (10 * acc + (ch.toNat - 48)) rest
    else none

/-- A non-empty all-digit parse (`strconv.Atoi` after the sign). -/
def parseDigits : List Char → Option Nat
  | [] => none
  | s => parseGo 0 s

/-- `strconv.Atoi`: optional sign, then one or more digits.  The 64-bit
range check is not modelled: every text this development parses denotes a
value far inside the `int` range. -/
def atoi (s : List Char) : Option Int :=
  match s with
  | [] => none
  | ch :: rest =>
    if ch.toNat = 43 then (parseDigits rest).map (fun n => (n : Int))
    else if ch.toNat = 45 then (parseDigits rest).map (fun n => -(n : Int))
    else (parseDigits s).map (fun n => (n : Int))

/-- `ExitCode.MarshalText`: the decimal text of the code. -/
def ExitCode.marshalText (c : Int) : List Char :=
  itoa c

/-- `ExitCode.UnmarshalText`: trim white space; empty means `Success`;
otherwise parse a decimal integer, failing with a format error on
non-numeric text (the `%q` quoting inside the Go error message is not
modelled; no claim inspects the message). -/
def ExitCode.unmarshalText (text : List Char) : Except String Int :=
  if trimSpace text = [] then .ok ExitCodeSuccess
  else match atoi (trimSpace text) with
  | some n => .ok n
  | none => .error ("invalid exit code text: " ++ String.mk (trimSpace text))

/-! ## Helper lemmas -/

/-- `errors.Is` along a chain agrees with the (unique) sentinel of the chain:
sentinels are leaves and chains are linear. -/
theorem errIs_eq_decide (e : Err) (s : Sentinel) :
    errIs e s = decide (chainSentinel e = some s) := by
  match e with
  | .sentinel t => simp [errIs, chainSentinel]
  | .exitError c m (some k) =>
    show errIs k s = decide (chainSentinel k = some s)
    exact errIs_eq_decide k s
  | .exitError c m none => simp [errIs, chainSentinel]
  | .wrap m inner =>
    show errIs inner s = decide (chainSentinel inner = some s)
    exact errIs_eq_decide inner s
  | .osError .. => simp [errIs, chainSentinel]
  | .netError .. => simp [errIs, chainSentinel]
  | .generic .. => simp [errIs, chainSentinel]

theorem digitChar_toNat {d : Nat} (h : d < 10) : (digitChar d).toNat = 48 + d := by
  interval_cases d <;> decide

theorem isDigitChar_digitChar {d : Nat} (h : d < 10) :
    isDigitChar (digitChar d) = true := by
  simp only [isDigitChar, decide_eq_true_eq, digitChar_toNat h]
  omega

theorem digit_not_space {ch : Char} (h : isDigitChar ch = true) :
    goIsSpace ch = false := by
  simp only [isDigitChar, decide_eq_true_eq] at h
  simp only [goIsSpace, decide_eq_false_iff_not]
  omega

theorem natDigits_ne_nil (n : Nat) : natDigits n ≠ [] := by
  rw [natDigits]
  split <;> simp

theorem natDigits_all_digits (n : Nat) :
    ∀ ch ∈ natDigits n, isDigitChar ch = true := by
  induction n using Nat.strong_induction_on with
  | _ n ih =>
    rw [natDigits]
    split
    · next h =>
      intro ch hch
      rw [List.mem_singleton] at hch
      subst hch
      exact isDigitChar_digitChar h
    · next h =>
      intro ch hch
      rw [List.mem_append] at hch
      rcases hch with hch | hch
      · exact ih (n / 10) (Nat.div_lt_self (by omega) (by omega)) ch hch
      · rw [List.mem_singleton] at hch
        subst hch
        exact isDigitChar_digitChar (Nat.mod_lt _ (by omega))

theorem parseGo_append (xs ys : List Char) :
    ∀ acc, parseGo acc (xs ++ ys) =
      match parseGo acc xs with
      | some a => parseGo a ys
      | none => none := by
  induction xs with
  | nil => intro acc; rfl
  | cons ch rest ih =>
    intro acc
    by_cases h : isDigitChar ch = true <;>
      simp [parseGo, h, ih]

theorem parseGo_natDigits (n : Nat) :
    ∀ acc, parseGo acc (natDigits n) =
      some (acc * 10 ^ (natDigits n).length + n) := by
  induction n using Nat.strong_induction_on with
  | _ n ih =>
    intro acc
    rw [natDigits]
    split
    · next h =>
      simp [parseGo, isDigitChar_digitChar h, digitChar_toNat h]
      omega
    · next h =>
      rw [parseGo_append]
      rw [ih (n / 10) (Nat.div_lt_self (by omega) (by omega)) acc]
      have hm : n % 10 < 10 := Nat.mod_lt _ (by omega)
      simp [parseGo, isDigitChar_digitChar hm, digitChar_toNat hm,
        List.length_append, pow_succ]
      rw [← mul_assoc]
      generalize acc * 10 ^ (natDigits (n / 10)).length = Q
      omega

theorem parseDigits_natDigits (n : Nat) : parseDigits (natDigits n) = some n := by
  have h1 := parseGo_natDigits n 0
  rcases hd : natDigits n with _ | ⟨ch, rest⟩
  · exact absurd hd (natDigits_ne_nil n)
  · rw [hd] at h1
    show parseGo 0 (ch :: rest) = some n
    simpa using h1

theorem dropWhile_append_sat {p : Char → Bool} {a : List Char}
    (h : ∀ ch ∈ a, p ch = true) (b : List Char) :
    (a ++ b).dropWhile p = b.dropWhile p := by
  induction a with
  | nil => rfl
  | cons x xs ih =>
    have hx : p x = true := h x (List.mem_cons_self x xs)
    rw [List.cons_append, List.dropWhile_cons_of_pos hx]
    exact ih (fun ch hch => h ch (List.mem_cons_of_mem x hch))

theorem dropWhile_all_false {p : Char → Bool} {l : List Char}
    (h : ∀ ch ∈ l, p ch = false) : l.dropWhile p = l := by
  cases l with
  | nil => rfl
  | cons x xs =>
    exact List.dropWhile_cons_of_neg
      (by simp [h x (List.mem_cons_self x xs)])

theorem dropWhile_append_ne_nil {p : Char → Bool} {a : List Char}
    (h : a.dropWhile p ≠ []) (b : List Char) :
    (a ++ b).dropWhile p = a.dropWhile p ++ b := by
  induction a with
  | nil => simp [List.dropWhile] at h
  | cons x xs ih =>
    by_cases hx : p x = true
    · rw [List.cons_append, List.dropWhile_cons_of_pos hx,
        List.dropWhile_cons_of_pos hx]
      rw [List.dropWhile_cons_of_pos hx] at h
      exact ih h
    · have hx' : ¬ (p x = true) := hx
      rw [List.cons_append, List.dropWhile_cons_of_neg hx',
        List.dropWhile_cons_of_neg hx', List.cons_append]

theorem trimSpace_of_digits {l : List Char}
    (h : ∀ ch ∈ l, isDigitChar ch = true) : trimSpace l = l := by
  have hns : ∀ ch ∈ l, goIsSpace ch = false :=
    fun ch hch => digit_not_space (h ch hch)
  unfold trimSpace
  rw [dropWhile_all_false hns]
  rw [dropWhile_all_false (fun ch hch => hns ch (List.mem_reverse.mp hch))]
  exact List.reverse_reverse l

theorem trimSpace_pad (pre post s : List Char)
    (hpre : ∀ ch ∈ pre, goIsSpace ch = true)
    (hpost : ∀ ch ∈ post, goIsSpace ch = true) :
    trimSpace (pre ++ s ++ post) = trimSpace s := by
  unfold trimSpace
  rw [List.append_assoc, dropWhile_append_sat hpre]
  by_cases hu : s.dropWhile goIsSpace = []
  · have hs : ∀ ch ∈ s, goIsSpace ch = true := by
      rw [← List.dropWhile_eq_nil_iff]
      exact hu
    have hsp : (s ++ post).dropWhile goIsSpace = [] := by
      rw [List.dropWhile_eq_nil_iff]
      intro x hx
      rcases List.mem_append.mp hx with hx | hx
      · exact hs x hx
      · exact hpost x hx
    rw [hsp, hu]
  · rw [dropWhile_append_ne_nil hu post]
    rw [List.reverse_append]
    rw [dropWhile_append_sat (fun ch hch => hpost ch (List.mem_reverse.mp hch))]

/-! ## The claims -/

/-- Claim C1: `ResolveExitCode` is total and implements exactly the
specification's strict priority order — nil to Success, an `ExitError` in
the chain to its code, the canceled sentinel to Interrupted(130), the
deadline-exceeded sentinel to TempFail(75), the not-exist OS condition to
NoInput(66), the permission-denied OS condition to NoPermission(77), the
network capability to TempFail(75) on timeout-or-temporary and
Unavailable(69) otherwise, a predefined sentinel cause to its bound code,
and anything else to ErrorInternal(1). -/
theorem claim_resolve_priority :
    ∀ e : Option Err, ResolveExitCode e = resolveSpecification e := by
  intro e
  rcases e with _ | err
  · rfl
  show ResolveExitCode (some err) = resolveSpecification (some err)
  unfold ResolveExitCode resolveSpecification
  rcases hA : asExitError err with _ | ee
  all_goals simp only [hA]
  simp only [errIs_eq_decide]
  rcases hS : chainSentinel err with _ | s
  all_goals simp only [hS]
  · rcases hN : asNetError err with _ | ⟨t, tmp⟩
    all_goals simp only [hN]
    · simp
    · cases t <;> cases tmp <;> simp
  · rcases hN : asNetError err with _ | ⟨t, tmp⟩
    all_goals simp only [hN]
    · cases s <;> simp [sentinelCode]
    · cases t <;> cases tmp <;> cases s <;> simp [sentinelCode]

/-- Claim C2 (counterexample): an error whose unwrap chain contains an
`ExitError` bound to 85 at depth one, yet whose resolution is the code 2
of the outer `ExitError` — resolution returns the first `ExitError` of the
chain, not an arbitrary contained one. -/
theorem claim_exit_code_override_cex :
    chainHasExitCode 85 (.exitError 2 "" (some (.exitError 85 "" none))) = true
    ∧ ResolveExitCode (some (.exitError 2 "" (some (.exitError 85 "" none)))) ≠ 85 := by
  constructor
  · rfl
  · decide

/-- Claim C2 (amended): for every exit code X, an `ExitError` bound to X —
itself, or wrapped to arbitrary depth by generic non-`ExitError` wrappers —
resolves to X verbatim, whatever its message and cause; the caller-assigned
code wins over every later resolution rule. -/
theorem claim_exit_code_override :
    ∀ (ms : List String) (x : Int) (m : String) (k : Option Err),
      ResolveExitCode (some (wrapAll ms (.exitError x m k))) = x := by
  intro ms x m k
  have h : asExitError (wrapAll ms (.exitError x m k)) = some ⟨x, m, k⟩ := by
    induction ms with
    | nil => rfl
    | cons a as ih => simpa [wrapAll, asExitError] using ih
  simp [ResolveExitCode, h]

/-- Claim C3: the category of a code is determined by its range — success at
0, general on 1–63, user_error on 64–79, cli_extended on 80–99, and
system_signal everywhere at or above 128 (named constant or not). -/
theorem claim_category_ranges :
    ∀ c : Int,
      (c = 0 → ExitCode.category c = CategorySuccess)
      ∧ (1 ≤ c ∧ c ≤ 63 → ExitCode.category c = CategoryGeneral)
      ∧ (64 ≤ c ∧ c ≤ 79 → ExitCode.category c = CategoryUserError)
      ∧ (80 ≤ c ∧ c ≤ 99 → ExitCode.category c = CategoryCLIExtended)
      ∧ (128 ≤ c → ExitCode.category c = CategorySystemSignal) := by
  intro c
  refine ⟨?_, ?_, ?_, ?_, ?_⟩ <;>
    (intro h; unfold ExitCode.category; split_ifs <;>
      first
        | rfl
        | (exfalso; omega))

/-- Claim C4 (counterexample): the unknown category is not confined to
negative codes — the non-negative code 100 (in the unnamed gap 100–127
between cli_extended and the signal range) is categorized unknown. -/
theorem claim_category_unknown_cex :
    ExitCode.category 100 = CategoryUnknown ∧ ¬ ((100 : Int) < 0) := by
  constructor
  · rfl
  · decide

/-- Claim C4 (amended): a code categorized unknown is negative or lies in
the gap 100–127 left between the cli_extended range and the signal range. -/
theorem claim_category_unknown (c : Int)
    (h : ExitCode.category c = CategoryUnknown) :
    c < 0 ∨ (100 ≤ c ∧ c ≤ 127) := by
  unfold ExitCode.category at h
  split_ifs at h <;>
    first
      | (exact absurd h (by decide))
      | omega

/-- Claim C4 (witness): the amended claim at the concrete unknown code -5. -/
theorem claim_category_unknown_witness :
    (-5 : Int) < 0 ∨ (100 ≤ (-5 : Int) ∧ (-5 : Int) ≤ 127) :=
  claim_category_unknown (-5) (by rfl)

/-- Claim C5: a code is retriable exactly when it is Unavailable(69),
IOError(74), TempFail(75) or RateLimit(86); in particular Success(0) and
every other code are not retriable. -/
theorem claim_retriable_set :
    ∀ c : Int,
      ExitCode.isRetriable c = true ↔ (c = 69 ∨ c = 74 ∨ c = 75 ∨ c = 86) := by
  intro c
  unfold ExitCode.isRetriable
  unfold ExitCodeTempFail ExitCodeUnavailable ExitCodeIOError ExitCodeRateLimit
  split_ifs with h
  · simp only [true_iff]
    omega
  · simp only [Bool.false_eq_true, false_iff]
    omega

/-- Claim C7: every code with a designated HTTP status maps, through
`ToHTTPStatus` then `FromHTTPStatus`, to something other than
ErrorInternal(1) — the lossy composition never degrades to the
internal-error code. -/
theorem claim_http_roundtrip (c : Int)
    (h : hasDesignatedHTTPStatus c = true) :
    FromHTTPStatus (ToHTTPStatus c) ≠ ExitCodeErrorInternal := by
  unfold hasDesignatedHTTPStatus at h
  rw [decide_eq_true_eq] at h
  rcases h with h | h | h | h | h | h | h | h | h | h | h | h | h | h | h |
    h | h | h | h | h <;> subst h <;> decide

/-- Claim C7 (witness): the round trip at QuotaExceeded(87), a designated
code (its status is 429, which maps back to RateLimit, not ErrorInternal). -/
theorem claim_http_roundtrip_witness :
    FromHTTPStatus (ToHTTPStatus 87) ≠ ExitCodeErrorInternal :=
  claim_http_roundtrip 87 (by decide)

/-- Claim C8 (counterexample): the structured record of
`ValidationError("invalid input")` does carry a `cause` key — the factory
sets the validation sentinel as a non-nil cause, whose text "validation
error" is non-empty, so `omitempty` does not drop the field. -/
theorem claim_validation_json_cex :
    (ExitError.marshalJSON (ValidationError "invalid input")).cause =
      some ("validation error") := by
  rfl

/-- Claim C8 (amended): the structured record of
`ValidationError("invalid input")` contains code = 85,
category = "cli_extended", message = "invalid input", and a `cause` key
holding the validation sentinel's text "validation error" (the cause being
present, not absent). -/
theorem claim_validation_json :
    ExitError.marshalJSON (ValidationError "invalid input") =
      { code := 85
        name := "Validation error"
        category := "cli_extended"
        message := "invalid input"
        cause := some ("validation error") } := by
  rfl

/-- Claim C9: an `ExitError` renders as its message when non-empty, else as
its cause's rendered text when a cause is present, else as the registry
description of its code; and for a code with no named constant the registry
description has the form "Unknown exit code: n". -/
theorem claim_error_render :
    ∀ (c : Int) (m : String) (k : Option Err),
      errString (.exitError c m k) =
        (if m = "" then
          (match k with
           | some cause => errString cause
           | none => ExitCode.string c)
         else m)
      ∧ ∀ n : Int, isNamedCode n = false →
          ExitCode.string n = "Unknown exit code: " ++ toString n := by
  intro c m k
  constructor
  · rcases k with _ | cause <;> by_cases hm : m = "" <;>
      simp [errString, hm]
  · intro n hn
    unfold isNamedCode at hn
    rw [decide_eq_false_iff_not] at hn
    unfold ExitCode.string
    unfold ExitCodeSuccess ExitCodeErrorInternal ExitCodeInvalidArgument
      ExitCodeCmdUsage ExitCodeDataError ExitCodeNoInput ExitCodeNoUser
      ExitCodeNoHost ExitCodeUnavailable ExitCodeSoftware ExitCodeOSError
      ExitCodeOSFile ExitCodeCantCreate ExitCodeIOError ExitCodeTempFail
      ExitCodeProtocol ExitCodeNoPermission ExitCodeConfig
      ExitCodeAuthRequired ExitCodeAuthFailed ExitCodeForbidden
      ExitCodeNotFound ExitCodeConflict ExitCodeValidation ExitCodeRateLimit
      ExitCodeQuotaExceeded ExitCodeInterrupted ExitCodeTerminated
    repeat rw [if_neg (by omega)]

/-- Claim C10: each convenience factory returns an `ExitError` whose cause
is the corresponding non-nil predefined sentinel; whatever the message
argument, identity-based chain matching on the result finds that sentinel,
and the structured record of the factory's error carries a `cause` field
(the sentinel's non-empty text). -/
theorem claim_factory_causes :
    ∀ message : String,
      (UsageError message).Cause = some (.sentinel .errUsage)
      ∧ errIs (UsageError message).toErr .errUsage = true
      ∧ (ExitError.marshalJSON (UsageError message)).cause =
          some ("usage error")
      ∧ (ValidationError message).Cause = some (.sentinel .errValidation)
      ∧ errIs (ValidationError message).toErr .errValidation = true
      ∧ (ExitError.marshalJSON (ValidationError message)).cause =
          some ("validation error")
      ∧ (ConfigError message).Cause = some (.sentinel .errConfig)
      ∧ errIs (ConfigError message).toErr .errConfig = true
      ∧ (ExitError.marshalJSON (ConfigError message)).cause =
          some ("configuration error")
      ∧ (NotFoundError message).Cause = some (.sentinel .errNotFound)
      ∧ errIs (NotFoundError message).toErr .errNotFound = true
      ∧ (ExitError.marshalJSON (NotFoundError message)).cause =
          some ("not found")
      ∧ (PermissionError message).Cause = some (.sentinel .errNoPermission)
      ∧ errIs (PermissionError message).toErr .errNoPermission = true
      ∧ (ExitError.marshalJSON (PermissionError message)).cause =
          some ("permission denied")
      ∧ (AuthError message).Cause = some (.sentinel .errAuth)
      ∧ errIs (AuthError message).toErr .errAuth = true
      ∧ (ExitError.marshalJSON (AuthError message)).cause =
          some ("authentication error")
      ∧ (TempFailError message).Cause = some (.sentinel .errTempFail)
      ∧ errIs (TempFailError message).toErr .errTempFail = true
      ∧ (ExitError.marshalJSON (TempFailError message)).cause =
          some ("temporary failure") := by
  intro message
  refine ⟨rfl, rfl, rfl, rfl, rfl, rfl, rfl, rfl, rfl, rfl, rfl, rfl, rfl,
    rfl, rfl, rfl, rfl, rfl, rfl, rfl, rfl⟩

/-- Claim C6: text serialization of a bare code round-trips — for any code
c ≥ 0, parsing the rendered decimal text gives back c with no error; a
whitespace-only text parses to Success(0); a non-numeric text fails; and
parsing ignores surrounding white space around the digits. -/
theorem claim_text_roundtrip (c : Int) (hc : 0 ≤ c) :
    ExitCode.unmarshalText (ExitCode.marshalText c) = Except.ok c
    ∧ ExitCode.unmarshalText [' ', ' ', ' '] = Except.ok 0
    ∧ (ExitCode.unmarshalText ['a', 'b', 'c']).isOk = false
    ∧ (∀ pre post s,
        (∀ ch ∈ pre, goIsSpace ch = true) →
        (∀ ch ∈ post, goIsSpace ch = true) →
        ExitCode.unmarshalText (pre ++ s ++ post) = ExitCode.unmarshalText s) := by
  refine ⟨?_, by rfl, by rfl, ?_⟩
  · have hm : ExitCode.marshalText c = natDigits c.toNat := by
      unfold ExitCode.marshalText itoa
      rw [if_neg (by omega)]
    rw [hm]
    have hdig := natDigits_all_digits c.toNat
    have hne := natDigits_ne_nil c.toNat
    unfold ExitCode.unmarshalText
    rw [trimSpace_of_digits hdig]
    rw [if_neg hne]
    rcases hd : natDigits c.toNat with _ | ⟨ch, rest⟩
    · exact absurd hd hne
    · have hch : isDigitChar ch = true :=
        hdig ch (by rw [hd]; exact List.mem_cons_self _ _)
      have hch' : 48 ≤ ch.toNat ∧ ch.toNat ≤ 57 := by
        simpa [isDigitChar] using hch
      have hp : parseDigits (ch :: rest) = some c.toNat := by
        rw [← hd]
        exact parseDigits_natDigits c.toNat
      have h43 : ¬ ch.toNat = 43 := by omega
      have h45 : ¬ ch.toNat = 45 := by omega
      unfold atoi
      simp [h43, h45, hp, Int.toNat_of_nonneg hc]
  · intro pre post s hpre hpost
    unfold ExitCode.unmarshalText
    rw [trimSpace_pad pre post s hpre hpost]

/-- Claim C6 (witness): the round-trip conjunction at the concrete code 85. -/
theorem claim_text_roundtrip_witness :
    ExitCode.unmarshalText (ExitCode.marshalText 85) = Except.ok 85
    ∧ ExitCode.unmarshalText [' ', ' ', ' '] = Except.ok 0
    ∧ (ExitCode.unmarshalText ['a', 'b', 'c']).isOk = false
    ∧ (∀ pre post s,
        (∀ ch ∈ pre, goIsSpace ch = true) →
        (∀ ch ∈ post, goIsSpace ch = true) →
        ExitCode.unmarshalText (pre ++ s ++ post) = ExitCode.unmarshalText s) :=
  claim_text_roundtrip 85 (by decide)
